import Mathlib

/-!
Verification of the countdown-timer program (src/main.py) against its
natural-language specification.  The Python source is shallowly embedded:
pure functions become Lean functions, the shared mutable `TimerState` becomes
a structure with explicit state-passing, timestamps are integer seconds, and
fallible parsers return `Except`/`Option`.
-/

/-- The character for a single decimal digit, as Python produces it
    (`'0'` has code point 48). -/
def digitChar (d : Nat) : Char := Char.ofNat (48 + d)

/-- Fuel-driven accumulator for the decimal representation of a natural
    number, most significant digit first.  Fuel `n + 1` always suffices. -/
def natStrGo : Nat → Nat → List Char → List Char
  | 0, _, acc => acc
  | fuel + 1, n, acc =>
    if n = 0 then acc else natStrGo fuel (n / 10) (digitChar (n % 10) :: acc)

/-- Decimal representation of a natural number, as Python's `str`/`{n}`
    formatting produces for non-negative ints: no sign, no padding. -/
def natStr (n : Nat) : String :=
  if n = 0 then "0" else ⟨natStrGo (n + 1) n []⟩

/-- Python's `f"{n:02d}"` for a non-negative int: pad with one leading zero
    when the value has a single digit, otherwise the plain representation
    (never truncates). -/
def pad2 (n : Nat) : String :=
  if n < 10 then "0" ++ natStr n else natStr n

/-- Embedding of `format_time` (src/main.py lines 70-97).  Negative input is
    clamped to zero (`Int.toNat` performs exactly the guard at lines 72-73);
    the three display modes mirror the three branches. -/
def format_time (total_seconds : Int) (display_mode : Nat) : String :=
  let t : Nat := total_seconds.toNat
  let hours : Nat := t / 3600
  let minutes : Nat := t % 3600 / 60
  let seconds : Nat := t % 60
  if display_mode = 0 then
    if hours > 0 then natStr hours ++ ":" ++ pad2 minutes ++ ":" ++ pad2 seconds
    else if minutes > 0 then natStr minutes ++ ":" ++ pad2 seconds
    else natStr seconds
  else if display_mode = 1 then
    if hours > 0 then natStr hours ++ ":" ++ pad2 minutes ++ ":" ++ pad2 seconds
    else if minutes > 0 then pad2 minutes ++ ":" ++ pad2 seconds
    else pad2 seconds
  else
    pad2 hours ++ ":" ++ pad2 minutes ++ ":" ++ pad2 seconds

example : format_time 0 2 = "00:00:00" := by decide
example : format_time 243 0 = "4:03" := by decide
example : format_time 243 1 = "04:03" := by decide
example : format_time 243 2 = "00:04:03" := by decide
example : format_time 360000 2 = "100:00:00" := by decide
example : format_time (-7) 2 = "00:00:00" := by decide
example : format_time 3661 0 = "1:01:01" := by decide

/-- Python's `text.split(sep)` for a single-character separator: splitting
    the empty text yields one empty part, and every separator occurrence
    ends a part. -/
def splitChar (sep : Char) : List Char → List (List Char)
  | [] => [[]]
  | c :: cs =>
    match splitChar sep cs with
    | [] => [[]]
    | p :: ps => if c = sep then [] :: p :: ps else (c :: p) :: ps

example : splitChar ':' "1:30".data = [['1'], ['3', '0']] := by decide
example : splitChar ':' "".data = [[]] := by decide
example : splitChar ':' "1:".data = [['1'], []] := by decide

/-- Leading/trailing-whitespace removal, as Python's `int` applies to its
    argument before reading the digits. -/
def pyStrip (cs : List Char) : List Char :=
  ((cs.dropWhile Char.isWhitespace).reverse.dropWhile Char.isWhitespace).reverse

/-- Value of a non-empty all-digit character list, most significant first;
    `none` on a non-digit or on the empty list. -/
def readDigits : List Char → Nat → Option Nat
  | [], acc => some acc
  | c :: cs, acc =>
    if c.isDigit then readDigits cs (acc * 10 + (c.toNat - 48)) else none

/-- Python's `int(text)` on the characters of `text`: strip whitespace, read
    an optional sign followed by at least one digit, fail otherwise.
    (Underscore digit grouping, accepted by CPython, is not modelled; no
    input the program builds contains it.) -/
def pyInt (cs : List Char) : Option Int :=
  match pyStrip cs with
  | [] => none
  | '+' :: rest => if rest = [] then none else (readDigits rest 0).map Int.ofNat
  | '-' :: rest =>
      if rest = [] then none else (readDigits rest 0).map (fun n => -(n : Int))
  | rest => (readDigits rest 0).map Int.ofNat

example : pyInt "90".data = some 90 := by decide
example : pyInt "-5".data = some (-5) := by decide
example : pyInt " 7 ".data = some 7 := by decide
example : pyInt "".data = none := by decide
example : pyInt "+12".data = some 12 := by decide
example : pyInt "1a".data = none := by decide

/-- Embedding of `parse_time` (src/main.py lines 34-50): split on `:`, then
    dispatch on the part count; out-of-range minutes/seconds and every
    `int()` failure raise `ValueError`, modelled as `Except.error` with the
    raised message. -/
def parse_time (time_str : String) : Except String Int :=
  let parts := splitChar ':' time_str.data
  match parts with
  | [p] =>
    match pyInt p with
    | some n => .ok n
    | none => .error "invalid literal for int"
  | [p1, p2] =>
    match pyInt p1, pyInt p2 with
    | some minutes, some seconds =>
      if 60 ≤ seconds then .error "Seconds must be < 60 when using mm:ss format"
      else .ok (minutes * 60 + seconds)
    | _, _ => .error "invalid literal for int"
  | [p1, p2, p3] =>
    match pyInt p1, pyInt p2, pyInt p3 with
    | some hours, some minutes, some seconds =>
      if 60 ≤ minutes ∨ 60 ≤ seconds then
        .error "Minutes and seconds must be < 60 when using hh:mm:ss format"
      else .ok (hours * 3600 + minutes * 60 + seconds)
    | _, _, _ => .error "invalid literal for int"
  | _ => .error "Invalid time format"

example : parse_time "90" = .ok 90 := rfl
example : parse_time "1:30" = .ok 90 := rfl
example : parse_time "1:00:00" = .ok 3600 := rfl
example : (parse_time "1:60").isOk = false := by decide
example : (parse_time "1:2:3:4").isOk = false := by decide
example : parse_time "-5" = .ok (-5) := rfl
example : parse_time "1:-5" = .ok 55 := rfl

/-- A Python `datetime` value at second precision (the program never uses
    sub-second components: `parse_date` zeroes `microsecond` wherever it sets
    the time of day, so microseconds are omitted from the model). -/
structure PyDateTime where
  year : Int
  month : Int
  day : Int
  hour : Int
  minute : Int
  second : Int
deriving DecidableEq, Repr

/-- Error kinds raised inside `parse_date`, keyed to the raise site in the
    source: the explicit `raise ValueError("Invalid date format")`, the
    `datetime(...)` constructor rejecting a calendar-invalid component, and
    an `int(...)` call failing on a non-numeric part. -/
inductive DateError where
  | invalidFormat
  | invalidDate
  | notAnInt
deriving DecidableEq, Repr

/-- Gregorian leap-year rule, as `datetime` applies it. -/
def isLeap (y : Int) : Bool := y % 4 = 0 && (y % 100 != 0 || y % 400 = 0)

/-- Days in a month of the proleptic Gregorian calendar used by `datetime`. -/
def daysInMonth (y m : Int) : Int :=
  if m = 2 then (if isLeap y then 29 else 28)
  else if m = 4 ∨ m = 6 ∨ m = 9 ∨ m = 11 then 30
  else 31

/-- The `datetime(year, month, day)` constructor: midnight of the given
    date when the components are in range (`datetime.MINYEAR = 1`,
    `datetime.MAXYEAR = 9999`), `ValueError` otherwise. -/
def mkDatetime (y m d : Int) : Except DateError PyDateTime :=
  if 1 ≤ y ∧ y ≤ 9999 ∧ 1 ≤ m ∧ m ≤ 12 ∧ 1 ≤ d ∧ d ≤ daysInMonth y m then
    .ok ⟨y, m, d, 0, 0, 0⟩
  else .error .invalidDate

/-- `now.replace(hour=0, minute=0, second=0, microsecond=0)`: the same
    calendar date at midnight. -/
def midnight (now : PyDateTime) : PyDateTime :=
  { now with hour := 0, minute := 0, second := 0 }

/-- Python's `text.lower()` character by character. -/
def pyLower (cs : List Char) : List Char := cs.map Char.toLower

/-- The test `not date_str or date_str.lower() == 'null'` guarding the
    "today at midnight" branch of `parse_date`: `None`, the empty string and
    any casing of "null" pass it. -/
def isNullSpec : Option String → Bool
  | none => true
  | some ds => ds.data = [] || pyLower ds.data = ['n', 'u', 'l', 'l']

/-- Embedding of `parse_date` (src/main.py lines 53-67).  The argument may
    be `None` (the CLI default); `now` is the current local datetime read by
    `datetime.now()`.  Two slash-separated parts give month/day of the
    current year; three give year/month/day; anything else raises
    `ValueError("Invalid date format")`. -/
def parse_date (date_str : Option String) (now : PyDateTime) :
    Except DateError PyDateTime :=
  if isNullSpec date_str then .ok (midnight now)
  else
    match date_str with
    | none => .ok (midnight now)
    | some ds =>
      match splitChar '/' ds.data with
      | [p1, p2] =>
        match pyInt p1, pyInt p2 with
        | some month, some day => mkDatetime now.year month day
        | _, _ => .error .notAnInt
      | [p1, p2, p3] =>
        match pyInt p1, pyInt p2, pyInt p3 with
        | some year, some month, some day => mkDatetime year month day
        | _, _, _ => .error .notAnInt
      | _ => .error .invalidFormat

example : parse_date (some "") ⟨2026, 10, 12, 13, 5, 7⟩ = .ok ⟨2026, 10, 12, 0, 0, 0⟩ := rfl
example : parse_date (some "NULL") ⟨2026, 10, 12, 13, 5, 7⟩ = .ok ⟨2026, 10, 12, 0, 0, 0⟩ := rfl
example : parse_date none ⟨2026, 10, 12, 13, 5, 7⟩ = .ok ⟨2026, 10, 12, 0, 0, 0⟩ := rfl
example : parse_date (some "3/14") ⟨2026, 10, 12, 13, 5, 7⟩ = .ok ⟨2026, 3, 14, 0, 0, 0⟩ := rfl
example : parse_date (some "2024/2/29") ⟨2026, 10, 12, 13, 5, 7⟩ = .ok ⟨2024, 2, 29, 0, 0, 0⟩ := rfl
example : parse_date (some "2025/2/29") ⟨2026, 10, 12, 13, 5, 7⟩ = .error .invalidDate := rfl
example : parse_date (some "2025/13/1") ⟨2026, 10, 12, 13, 5, 7⟩ = .error .invalidDate := rfl
example : parse_date (some "1/2/3/4") ⟨2026, 10, 12, 13, 5, 7⟩ = .error .invalidFormat := rfl

/-- The pending confirmation kind: the strings `'restart'` / `'quit'`
    stored in `state.awaiting_confirm`. -/
inductive ConfirmKind where
  | restart
  | quit
deriving DecidableEq, Repr

/-- Embedding of the mutable `TimerState` (src/main.py lines 22-31).
    Timestamps (`pause_start`) and durations (`total_paused`) are integer
    seconds of wall-clock time. -/
structure TimerState where
  running : Bool
  paused : Bool
  restart_requested : Bool
  quit_requested : Bool
  awaiting_confirm : Option ConfirmKind
  pause_start : Option Int
  total_paused : Int
deriving DecidableEq, Repr

/-- `TimerState.__init__`: the state a fresh timer starts from. -/
def initState : TimerState :=
  { running := true, paused := false, restart_requested := false,
    quit_requested := false, awaiting_confirm := none,
    pause_start := none, total_paused := 0 }

/-- Embedding of the keyboard handler `on_press` (src/main.py lines
    108-144).  `key` is the character of the key event after the guard at
    line 110 (`none` for non-character keys, which reach the handler with
    `char = None` and fall through every comparison); the handler lowercases
    it.  `now` is the value `datetime.now()` would return during this event. -/
def on_press (key : Option Char) (now : Int) (s : TimerState) : TimerState :=
  let char : Option Char := key.map Char.toLower
  match s.awaiting_confirm with
  | some kind =>
    if char = some 'y' then
      match kind with
      | .restart => { s with restart_requested := true, awaiting_confirm := none }
      | .quit => { s with quit_requested := true, awaiting_confirm := none }
    else if char = some 'n' then { s with awaiting_confirm := none }
    else s
  | none =>
    if char = some 'r' then { s with awaiting_confirm := some .restart }
    else if char = some 'p' then
      if s.paused then
        match s.pause_start with
        | some ps =>
          { s with total_paused := s.total_paused + (now - ps),
                   pause_start := none, paused := false }
        | none => { s with paused := false }
      else { s with pause_start := some now, paused := true }
    else if char = some 'q' then { s with awaiting_confirm := some .quit }
    else s

/-- The reset performed at the top of each outer-loop cycle of `run_timer`
    (src/main.py lines 163-166), before the cycle's anchor times are
    computed at lines 168-180. -/
def cycleReset (s : TimerState) : TimerState :=
  { s with restart_requested := false, total_paused := 0,
           pause_start := none, paused := false }

/-- What one inner-loop tick does after the loop condition has passed. -/
inductive TickResult where
  | skipped
  | output (display_seconds : Int)
  | completed
deriving DecidableEq, Repr

/-- Embedding of one tick of the inner loop of `run_timer` (src/main.py
    lines 185-215): the paused-sleep branch skips the tick entirely (modes 1
    and 2 only); otherwise the mode's remaining/elapsed value is computed
    from `now` and the cycle anchors, a reach of zero ends the session
    (`completed`, which also writes the formatted zero), and otherwise the
    clamped value is published. -/
def tick (mode : Nat) (s : TimerState) (now target start_time duration : Int) :
    TickResult :=
  if s.paused ∧ mode ≠ 0 then .skipped
  else if mode = 0 then
    let remaining := target - now
    if remaining ≤ 0 then .completed else .output (max 0 remaining)
  else if mode = 1 then
    let elapsed := (now - start_time) - s.total_paused
    let remaining := duration - elapsed
    if remaining ≤ 0 then .completed else .output (max 0 remaining)
  else
    .output ((now - start_time) - s.total_paused)

/-- How one invocation of `run_timer` inside `main`'s `try` block ends. -/
inductive RunOutcome where
  | normal
  | keyboardInterrupt
  | exception (msg : String)
deriving DecidableEq, Repr

/-- The externally visible effects of `main`'s exception handling. -/
structure MainEffect where
  consoleLines : List String
  sinkWrites : List String
  exitCode : Nat
deriving DecidableEq, Repr

/-- Embedding of the `try/except` block of `main` (src/main.py lines
    348-355): `KeyboardInterrupt` prints a notice and clears the output
    file; any other exception prints the error and exits with code 1. -/
def mainHandler : RunOutcome → MainEffect
  | .normal => { consoleLines := [], sinkWrites := [], exitCode := 0 }
  | .keyboardInterrupt =>
      { consoleLines := ["Interrupted by user"], sinkWrites := [""], exitCode := 0 }
  | .exception msg =>
      { consoleLines := ["Error: " ++ msg], sinkWrites := [], exitCode := 1 }

example : on_press (some 'R') 0 initState = { initState with awaiting_confirm := some .restart } := rfl
example : on_press (some 'x') 0 { initState with awaiting_confirm := some .restart } = { initState with awaiting_confirm := some .restart } := rfl
example : on_press (some 'p') 5 initState = { initState with paused := true, pause_start := some 5 } := rfl
example : on_press (some 'p') 9 { initState with paused := true, pause_start := some 5 } = { initState with total_paused := 4 } := rfl

/-- A two-character all-digit string: the shape of one zero-padded field. -/
def twoDigit (s : String) : Prop :=
  s.data.length = 2 ∧ ∀ c ∈ s.data, c.isDigit = true

instance : DecidablePred twoDigit := fun _ => instDecidableAnd

/-- The text of a formatted display string up to its first `:`, i.e. the
    hours field when hours are shown first. -/
def hoursFieldOf (s : String) : List Char := s.data.takeWhile (fun c => c != ':')

theorem pad2_twoDigit : ∀ n, n < 100 → twoDigit (pad2 n) := by decide

theorem digitChar_lt10_facts :
    ∀ d, d < 10 → (digitChar d).isDigit = true ∧ digitChar d ≠ ':' ∧
      (0 < d → digitChar d ≠ '0') := by decide

theorem natStrGo_all {P : Char → Prop} (hd : ∀ d, d < 10 → P (digitChar d)) :
    ∀ (fuel n : Nat) (acc : List Char), (∀ c ∈ acc, P c) →
      ∀ c ∈ natStrGo fuel n acc, P c := by
  intro fuel
  induction fuel with
  | zero => intro n acc hacc c hc; exact hacc c hc
  | succ f ih =>
    intro n acc hacc c hc
    by_cases hn : n = 0
    · rw [natStrGo, if_pos hn] at hc
      exact hacc c hc
    · rw [natStrGo, if_neg hn] at hc
      refine ih (n / 10) _ ?_ c hc
      intro c2 hc2
      rcases List.mem_cons.mp hc2 with h | h
      · exact h ▸ hd (n % 10) (Nat.mod_lt n (by omega))
      · exact hacc c2 h

theorem natStrGo_zero (fuel : Nat) (acc : List Char) : natStrGo fuel 0 acc = acc := by
  cases fuel <;> simp [natStrGo]

theorem natStrGo_head :
    ∀ (fuel n : Nat) (acc : List Char), 0 < n → n ≤ fuel →
      ∃ d, 0 < d ∧ d < 10 ∧ (natStrGo fuel n acc).head? = some (digitChar d) := by
  intro fuel
  induction fuel with
  | zero => intro n acc h1 h2; omega
  | succ f ih =>
    intro n acc h1 h2
    rw [natStrGo, if_neg (by omega)]
    by_cases h10 : n / 10 = 0
    · rw [h10, natStrGo_zero]
      exact ⟨n % 10, by omega, by omega, rfl⟩
    · exact ih (n / 10) _ (Nat.pos_of_ne_zero h10) (by omega)

theorem natStr_all_digits (n : Nat) : ∀ c ∈ (natStr n).data, c.isDigit = true := by
  unfold natStr
  by_cases hn : n = 0
  · rw [if_pos hn]; decide
  · rw [if_neg hn]
    exact natStrGo_all (fun d hd => (digitChar_lt10_facts d hd).1) (n + 1) n []
      (by intro c hc; cases hc)

theorem natStr_no_colon (n : Nat) : ∀ c ∈ (natStr n).data, c ≠ ':' := by
  unfold natStr
  by_cases hn : n = 0
  · rw [if_pos hn]; decide
  · rw [if_neg hn]
    exact natStrGo_all (fun d hd => (digitChar_lt10_facts d hd).2.1) (n + 1) n []
      (by intro c hc; cases hc)

theorem natStr_head_ne_zero (n : Nat) (h : 0 < n) :
    (natStr n).data.head? ≠ some '0' := by
  unfold natStr
  rw [if_neg (by omega)]
  obtain ⟨d, hd0, hd10, hhead⟩ := natStrGo_head (n + 1) n [] h (by omega)
  show (natStrGo (n + 1) n []).head? ≠ some '0'
  rw [hhead]
  intro hcontra
  exact (digitChar_lt10_facts d hd10).2.2 hd0 (Option.some.inj hcontra)

theorem takeWhile_append_colon (l₁ l₂ : List Char) (h : ∀ c ∈ l₁, c ≠ ':') :
    (l₁ ++ ':' :: l₂).takeWhile (fun c => c != ':') = l₁ := by
  induction l₁ with
  | nil => simp
  | cons a t ih =>
    have ha : (a != ':') = true := bne_iff_ne.mpr (h a (by simp))
    simp only [List.cons_append, List.takeWhile_cons, ha, if_true]
    rw [ih (fun c hc => h c (by simp [hc]))]

theorem format_time_mode2 (x : Int) :
    format_time x 2 =
      pad2 (x.toNat / 3600) ++ ":" ++ pad2 (x.toNat % 3600 / 60) ++ ":" ++
        pad2 (x.toNat % 60) := rfl

theorem format_time_mode0_hours (x : Int) (hh : 0 < x.toNat / 3600) :
    format_time x 0 =
      natStr (x.toNat / 3600) ++ ":" ++ pad2 (x.toNat % 3600 / 60) ++ ":" ++
        pad2 (x.toNat % 60) := if_pos hh

theorem format_time_mode1_hours (x : Int) (hh : 0 < x.toNat / 3600) :
    format_time x 1 =
      natStr (x.toNat / 3600) ++ ":" ++ pad2 (x.toNat % 3600 / 60) ++ ":" ++
        pad2 (x.toNat % 60) := if_pos hh

/-- C1 (counterexample): `format_time(x, 2)` is not always 8 characters for
    `x ≥ 0` — at 100 hours the hours field grows to three digits. -/
theorem format_time_full_width_cex :
    format_time 360000 2 = "100:00:00" ∧ (format_time 360000 2).length ≠ 8 := by
  constructor
  · decide
  · decide

/-- C1 (amended): for every `x` with `0 ≤ x < 360000` (hours below 100),
    `format_time(x, 2)` is exactly 8 characters of the shape `HH:MM:SS`,
    each field two zero-padded digits. -/
theorem format_time_full_width (x : Int) (h0 : 0 ≤ x) (h1 : x < 360000) :
    (format_time x 2).length = 8 ∧
    ∃ H M S, format_time x 2 = H ++ ":" ++ M ++ ":" ++ S ∧
      twoDigit H ∧ twoDigit M ∧ twoDigit S := by
  have ht : x.toNat < 360000 := by omega
  have hH := pad2_twoDigit (x.toNat / 3600) (by omega)
  have hM := pad2_twoDigit (x.toNat % 3600 / 60) (by omega)
  have hS := pad2_twoDigit (x.toNat % 60) (by omega)
  refine ⟨?_, pad2 (x.toNat / 3600), pad2 (x.toNat % 3600 / 60), pad2 (x.toNat % 60),
    format_time_mode2 x, hH, hM, hS⟩
  rw [format_time_mode2 x]
  simp only [String.length_append]
  have lH : (pad2 (x.toNat / 3600)).length = 2 := hH.1
  have lM : (pad2 (x.toNat % 3600 / 60)).length = 2 := hM.1
  have lS : (pad2 (x.toNat % 60)).length = 2 := hS.1
  rw [lH, lM, lS]
  decide

/-- Witness for C1 (amended) at `x = 3661`. -/
theorem format_time_full_width_witness : (format_time 3661 2).length = 8 :=
  (format_time_full_width 3661 (by decide) (by decide)).1

/-- C2 (counterexample): in display mode 2 the hours field is zero-padded —
    at 5 hours it reads `05`, not the unpadded `5`. -/
theorem hours_unpadded_cex :
    format_time 18000 2 = "05:00:00" ∧
    hoursFieldOf (format_time 18000 2) ≠ (natStr ((18000 : Int).toNat / 3600)).data := by
  constructor
  · decide
  · decide

/-- C2 (amended): in display modes 0 and 1, whenever the hours field is
    present (hours positive) it is the plain decimal representation of the
    hours value, with no leading zero. -/
theorem hours_unpadded_modes01 (x : Int) (m : Nat) (hm : m = 0 ∨ m = 1)
    (hh : 0 < x.toNat / 3600) :
    hoursFieldOf (format_time x m) = (natStr (x.toNat / 3600)).data ∧
    (natStr (x.toNat / 3600)).data.head? ≠ some '0' := by
  have hform : format_time x m =
      natStr (x.toNat / 3600) ++ ":" ++ pad2 (x.toNat % 3600 / 60) ++ ":" ++
        pad2 (x.toNat % 60) := by
    rcases hm with h | h <;> subst h
    · exact format_time_mode0_hours x hh
    · exact format_time_mode1_hours x hh
  constructor
  · unfold hoursFieldOf
    rw [hform]
    have hdata : (natStr (x.toNat / 3600) ++ ":" ++ pad2 (x.toNat % 3600 / 60) ++ ":" ++
        pad2 (x.toNat % 60)).data =
        (natStr (x.toNat / 3600)).data ++ ':' ::
          ((pad2 (x.toNat % 3600 / 60)).data ++ ':' :: (pad2 (x.toNat % 60)).data) := by
      simp [String.data_append]
    rw [hdata]
    exact takeWhile_append_colon _ _ (natStr_no_colon _)
  · exact natStr_head_ne_zero _ hh

/-- Witness for C2 (amended) at `x = 36000` (10 hours), display mode 0. -/
theorem hours_unpadded_modes01_witness :
    hoursFieldOf (format_time 36000 0) = (natStr ((36000 : Int).toNat / 3600)).data ∧
    (natStr ((36000 : Int).toNat / 3600)).data.head? ≠ some '0' :=
  hours_unpadded_modes01 36000 0 (Or.inl rfl) (by decide)

/-- C3 (counterexample): the per-cycle reset does not clear
    `quit_requested` — a state entering the reset with the quit flag set
    leaves it set. -/
theorem cycle_reset_cex :
    (cycleReset { running := true, paused := true, restart_requested := true,
                  quit_requested := true, awaiting_confirm := none,
                  pause_start := some 5, total_paused := 3 }).quit_requested = true := rfl

/-- C3 (amended): at the start of every run cycle, before the anchor times
    are recomputed, the reset clears `restart_requested`, zeroes
    `total_paused`, nulls `pause_start` and unsets `paused`;
    `quit_requested` (like `running` and `awaiting_confirm`) is left
    unchanged, not cleared. -/
theorem cycle_reset_spec (s : TimerState) :
    (cycleReset s).restart_requested = false ∧
    (cycleReset s).total_paused = 0 ∧
    (cycleReset s).pause_start = none ∧
    (cycleReset s).paused = false ∧
    (cycleReset s).quit_requested = s.quit_requested ∧
    (cycleReset s).running = s.running ∧
    (cycleReset s).awaiting_confirm = s.awaiting_confirm := by
  simp [cycleReset]

/-- C4 (counterexample): when `run_timer` raises an ordinary exception, the
    top level never writes the empty string to the output sink — the clear
    happens only on `KeyboardInterrupt`. -/
theorem main_handler_cex :
    ¬ "" ∈ (mainHandler (RunOutcome.exception "boom")).sinkWrites := by
  intro h
  simp [mainHandler] at h

/-- C4 (amended): an unexpected exception from the run loop is caught at
    the top level, reported on the console and terminates the process with
    exit code 1, but the output sink is not written at all on that path;
    the empty-string clear happens only on an external keyboard
    interrupt. -/
theorem main_handler_exception (msg : String) :
    (mainHandler (.exception msg)).exitCode = 1 ∧
    (mainHandler (.exception msg)).consoleLines = ["Error: " ++ msg] ∧
    (mainHandler (.exception msg)).sinkWrites = [] ∧
    (mainHandler .keyboardInterrupt).sinkWrites = [""] := by
  simp [mainHandler]

/-- C5: in mode 0 (`ToTarget`) a tick is never skipped and its computed
    value is determined by the wall clock and the target alone: any two
    states — in particular any two pause histories — produce the same
    result at the same instant, namely `target - now` (clamped). -/
theorem totarget_ignores_pause (s₁ s₂ : TimerState)
    (now target start_time duration : Int) :
    tick 0 s₁ now target start_time duration =
      (if target - now ≤ 0 then .completed else .output (max 0 (target - now))) ∧
    tick 0 s₁ now target start_time duration =
      tick 0 s₂ now target start_time duration ∧
    tick 0 s₁ now target start_time duration ≠ .skipped := by
  have h : ∀ s : TimerState, tick 0 s now target start_time duration =
      (if target - now ≤ 0 then .completed else .output (max 0 (target - now))) := by
    intro s
    simp [tick]
  refine ⟨h s₁, (h s₁).trans (h s₂).symm, ?_⟩
  rw [h s₁]
  split <;> simp

/-- C6: while a confirmation is pending, `y` resolves the pending action
    (setting the matching request flag) and clears `awaiting_confirm`, `n`
    clears `awaiting_confirm` and changes nothing else, and every other key
    event — including `r` itself and non-character keys — leaves the state
    exactly as it was. -/
theorem confirm_gating (s : TimerState) (key : Option Char) (now : Int)
    (k : ConfirmKind) (h : s.awaiting_confirm = some k) :
    (key.map Char.toLower = some 'y' →
      on_press key now s =
        (match k with
         | .restart => { s with restart_requested := true, awaiting_confirm := none }
         | .quit => { s with quit_requested := true, awaiting_confirm := none })) ∧
    (key.map Char.toLower = some 'n' →
      on_press key now s = { s with awaiting_confirm := none }) ∧
    (key.map Char.toLower ≠ some 'y' → key.map Char.toLower ≠ some 'n' →
      on_press key now s = s) := by
  refine ⟨?_, ?_, ?_⟩
  · intro hy
    cases k <;> simp [on_press, h, hy]
  · intro hn
    have hy : ¬ key.map Char.toLower = some 'y' := by
      rw [hn]; simp
    simp [on_press, h, hn, hy]
  · intro hy hn
    simp [on_press, h, hy, hn]

/-- Witness for C6: with a restart confirmation pending, the key `x`
    changes nothing. -/
theorem confirm_gating_witness :
    on_press (some 'x') 0 { initState with awaiting_confirm := some ConfirmKind.restart } =
      { initState with awaiting_confirm := some ConfirmKind.restart } :=
  (confirm_gating { initState with awaiting_confirm := some ConfirmKind.restart }
    (some 'x') 0 ConfirmKind.restart rfl).2.2 (by decide) (by decide)

theorem splitChar_ne_nil (sep : Char) (cs : List Char) : splitChar sep cs ≠ [] := by
  cases cs with
  | nil => simp [splitChar]
  | cons c rest =>
    cases h : splitChar sep rest with
    | nil => simp [splitChar, h]
    | cons p ps => by_cases hc : c = sep <;> simp [splitChar, h, hc]

theorem parse_time_one_part (s : String) (p : List Char) (n : Int)
    (hsplit : splitChar ':' s.data = [p]) (h1 : pyInt p = some n) :
    parse_time s = .ok n := by
  simp [parse_time, hsplit, h1]

theorem parse_time_two_parts (s : String) (p1 p2 : List Char) (mv sv : Int)
    (hsplit : splitChar ':' s.data = [p1, p2])
    (h1 : pyInt p1 = some mv) (h2 : pyInt p2 = some sv) :
    parse_time s =
      if 60 ≤ sv then .error "Seconds must be < 60 when using mm:ss format"
      else .ok (mv * 60 + sv) := by
  simp [parse_time, hsplit, h1, h2]

theorem parse_time_three_parts (s : String) (p1 p2 p3 : List Char) (hv mv sv : Int)
    (hsplit : splitChar ':' s.data = [p1, p2, p3])
    (h1 : pyInt p1 = some hv) (h2 : pyInt p2 = some mv) (h3 : pyInt p3 = some sv) :
    parse_time s =
      if 60 ≤ mv ∨ 60 ≤ sv then
        .error "Minutes and seconds must be < 60 when using hh:mm:ss format"
      else .ok (hv * 3600 + mv * 60 + sv) := by
  simp [parse_time, hsplit, h1, h2, h3]

theorem parse_time_many_parts (s : String) (p1 p2 p3 p4 : List Char) (t : List (List Char))
    (hsplit : splitChar ':' s.data = p1 :: p2 :: p3 :: p4 :: t) :
    parse_time s = .error "Invalid time format" := by
  simp [parse_time, hsplit]

theorem parse_time_bad_part (s : String)
    (h : ∃ p ∈ splitChar ':' s.data, pyInt p = none) :
    (parse_time s).isOk = false := by
  obtain ⟨p, hp, hnone⟩ := h
  rcases hl : splitChar ':' s.data with _ | ⟨p1, _ | ⟨p2, _ | ⟨p3, _ | t⟩⟩⟩
  · exact absurd hl (splitChar_ne_nil ':' s.data)
  · rw [hl] at hp
    simp at hp
    subst hp
    simp [parse_time, hl, hnone, Except.isOk, Except.toBool]
  · rw [hl] at hp
    simp at hp
    cases hv1 : pyInt p1 <;> cases hv2 : pyInt p2 <;>
      rcases hp with hp | hp <;> subst hp <;>
        simp_all [parse_time, hl, Except.isOk, Except.toBool]
  · rw [hl] at hp
    simp at hp
    cases hv1 : pyInt p1 <;> cases hv2 : pyInt p2 <;> cases hv3 : pyInt p3 <;>
      rcases hp with hp | hp | hp <;> subst hp <;>
        simp_all [parse_time, hl, Except.isOk, Except.toBool]
  · rw [parse_time_many_parts s _ _ _ _ _ hl]
    rfl

/-- C7: `parse_time` splits on `:`; one part is plain seconds, two parts
    are minutes and seconds (seconds under 60), three parts are hours,
    minutes, seconds (minutes and seconds under 60), any other part count
    or unparseable part fails, and the five concrete examples behave as
    stated. -/
theorem parse_time_spec :
    parse_time "90" = .ok 90 ∧
    parse_time "1:30" = .ok 90 ∧
    parse_time "1:00:00" = .ok 3600 ∧
    parse_time "1:60" = .error "Seconds must be < 60 when using mm:ss format" ∧
    parse_time "1:2:3:4" = .error "Invalid time format" ∧
    (∀ s p n, splitChar ':' s.data = [p] → pyInt p = some n → parse_time s = .ok n) ∧
    (∀ s p1 p2 mv sv, splitChar ':' s.data = [p1, p2] →
      pyInt p1 = some mv → pyInt p2 = some sv →
      parse_time s =
        if 60 ≤ sv then .error "Seconds must be < 60 when using mm:ss format"
        else .ok (mv * 60 + sv)) ∧
    (∀ s p1 p2 p3 hv mv sv, splitChar ':' s.data = [p1, p2, p3] →
      pyInt p1 = some hv → pyInt p2 = some mv → pyInt p3 = some sv →
      parse_time s =
        if 60 ≤ mv ∨ 60 ≤ sv then
          .error "Minutes and seconds must be < 60 when using hh:mm:ss format"
        else .ok (hv * 3600 + mv * 60 + sv)) ∧
    (∀ s parts, splitChar ':' s.data = parts → 4 ≤ parts.length →
      parse_time s = .error "Invalid time format") ∧
    (∀ s, (∃ p ∈ splitChar ':' s.data, pyInt p = none) →
      (parse_time s).isOk = false) := by
  refine ⟨rfl, rfl, rfl, rfl, rfl, ?_, ?_, ?_, ?_, ?_⟩
  · exact parse_time_one_part
  · exact parse_time_two_parts
  · exact parse_time_three_parts
  · intro s parts hsplit hlen
    rcases parts with _ | ⟨p1, _ | ⟨p2, _ | ⟨p3, _ | t⟩⟩⟩ <;> simp at hlen
    exact parse_time_many_parts s _ _ _ _ _ hsplit
  · exact parse_time_bad_part

/-- Witness for C7: the two-part rule applied to "2:05". -/
theorem parse_time_spec_witness :
    parse_time "2:05" =
      if (60 : Int) ≤ 5 then .error "Seconds must be < 60 when using mm:ss format"
      else .ok (2 * 60 + 5) :=
  parse_time_spec.2.2.2.2.2.2.1 "2:05" ['2'] ['0', '5'] 2 5 rfl rfl rfl

theorem parse_date_nullish (now : PyDateTime) (ds : Option String)
    (h : isNullSpec ds = true) : parse_date ds now = .ok (midnight now) := by
  simp [parse_date, h]

theorem parse_date_two_parts (now : PyDateTime) (s : String) (p1 p2 : List Char)
    (m d : Int) (hn : isNullSpec (some s) = false)
    (hsplit : splitChar '/' s.data = [p1, p2])
    (h1 : pyInt p1 = some m) (h2 : pyInt p2 = some d) :
    parse_date (some s) now = mkDatetime now.year m d := by
  simp [parse_date, hn, hsplit, h1, h2]

theorem parse_date_three_parts (now : PyDateTime) (s : String) (p1 p2 p3 : List Char)
    (y m d : Int) (hn : isNullSpec (some s) = false)
    (hsplit : splitChar '/' s.data = [p1, p2, p3])
    (h1 : pyInt p1 = some y) (h2 : pyInt p2 = some m) (h3 : pyInt p3 = some d) :
    parse_date (some s) now = mkDatetime y m d := by
  simp [parse_date, hn, hsplit, h1, h2, h3]

theorem parse_date_other_shape (now : PyDateTime) (s : String)
    (hn : isNullSpec (some s) = false)
    (h2 : (splitChar '/' s.data).length ≠ 2) (h3 : (splitChar '/' s.data).length ≠ 3) :
    parse_date (some s) now = .error .invalidFormat := by
  rcases hl : splitChar '/' s.data with _ | ⟨p1, _ | ⟨p2, _ | ⟨p3, _ | t⟩⟩⟩
  · exact absurd hl (splitChar_ne_nil '/' s.data)
  · simp [parse_date, hn, hl]
  · rw [hl] at h2; simp at h2
  · rw [hl] at h3; simp at h3
  · simp [parse_date, hn, hl]

theorem mkDatetime_bad_month (y m d : Int) (hm : m ≤ 0 ∨ 13 ≤ m) :
    mkDatetime y m d = .error .invalidDate := by
  unfold mkDatetime
  rw [if_neg]
  intro h
  obtain ⟨_, _, h1, h2, _⟩ := h
  omega

/-- C8: `parse_date` maps `None`, the empty string and any casing of
    "null" to today's date at midnight; a two-part `m/d` input to that
    month and day of the current year at midnight; a three-part `y/m/d`
    input to that calendar date at midnight; any other part count to
    `Invalid date format`; and a calendar-invalid component such as month
    13 to the `datetime` constructor's rejection. -/
theorem parse_date_spec (now : PyDateTime) :
    parse_date none now = .ok (midnight now) ∧
    parse_date (some "") now = .ok (midnight now) ∧
    (∀ s, pyLower s.data = ['n', 'u', 'l', 'l'] →
      parse_date (some s) now = .ok (midnight now)) ∧
    midnight now = ⟨now.year, now.month, now.day, 0, 0, 0⟩ ∧
    (∀ s p1 p2 m d, isNullSpec (some s) = false →
      splitChar '/' s.data = [p1, p2] → pyInt p1 = some m → pyInt p2 = some d →
      parse_date (some s) now = mkDatetime now.year m d) ∧
    (∀ s p1 p2 p3 y m d, isNullSpec (some s) = false →
      splitChar '/' s.data = [p1, p2, p3] →
      pyInt p1 = some y → pyInt p2 = some m → pyInt p3 = some d →
      parse_date (some s) now = mkDatetime y m d) ∧
    (∀ s, isNullSpec (some s) = false →
      (splitChar '/' s.data).length ≠ 2 → (splitChar '/' s.data).length ≠ 3 →
      parse_date (some s) now = .error .invalidFormat) ∧
    (∀ y m d, m ≤ 0 ∨ 13 ≤ m → mkDatetime y m d = .error .invalidDate) ∧
    parse_date (some "2025/13/1") now = .error .invalidDate := by
  refine ⟨parse_date_nullish now none rfl, parse_date_nullish now (some "") rfl,
    ?_, rfl, parse_date_two_parts now, parse_date_three_parts now,
    parse_date_other_shape now, mkDatetime_bad_month, ?_⟩
  · intro s h
    apply parse_date_nullish
    simp [isNullSpec, h]
  · rw [parse_date_three_parts now "2025/13/1" ['2', '0', '2', '5'] ['1', '3'] ['1']
      2025 13 1 rfl rfl rfl rfl rfl]
    exact mkDatetime_bad_month 2025 13 1 (Or.inr (by omega))

/-- Witness for C8: the three-part rule applied to a leap day. -/
theorem parse_date_spec_witness :
    parse_date (some "2024/2/29") ⟨2026, 10, 12, 13, 5, 7⟩ = mkDatetime 2024 2 29 :=
  (parse_date_spec ⟨2026, 10, 12, 13, 5, 7⟩).2.2.2.2.2.1 "2024/2/29"
    ['2', '0', '2', '4'] ['2'] ['2', '9'] 2024 2 29 rfl rfl rfl rfl rfl

/-- The invariant relating the two pause fields: `pause_start` is set
    exactly when the timer is paused. -/
def pauseInv (s : TimerState) : Prop := s.pause_start.isSome = s.paused

instance : DecidablePred pauseInv := fun s =>
  inferInstanceAs (Decidable (s.pause_start.isSome = s.paused))

/-- C9: the pause invariant holds in the freshly constructed state and is
    preserved by every key event the input controller handles and by the
    per-cycle reset of the outer loop. -/
theorem pause_invariant_preserved :
    pauseInv initState ∧
    (∀ key now s, pauseInv s → pauseInv (on_press key now s)) ∧
    (∀ s, pauseInv (cycleReset s)) := by
  refine ⟨rfl, ?_, ?_⟩
  · intro key now s h
    unfold pauseInv at h ⊢
    rcases key with _ | c
    · rcases hac : s.awaiting_confirm with _ | k
      · simp [on_press, hac, h]
      · cases k <;> simp [on_press, hac, h]
    · rcases hac : s.awaiting_confirm with _ | k
      · by_cases h1 : c.toLower = 'r'
        · simp [on_press, hac, h1, h]
        · by_cases h2 : c.toLower = 'p'
          · by_cases hp : s.paused
            · rcases hps : s.pause_start with _ | ps <;>
                simp [on_press, hac, h1, h2, hp, hps]
            · simp [on_press, hac, h1, h2, hp]
          · by_cases h3 : c.toLower = 'q'
            · simp [on_press, hac, h1, h2, h3, h]
            · simp [on_press, hac, h1, h2, h3, h]
      · by_cases h1 : c.toLower = 'y'
        · cases k <;> simp [on_press, hac, h1, h]
        · by_cases h2 : c.toLower = 'n'
          · cases k <;> simp [on_press, hac, h1, h2, h]
          · cases k <;> simp [on_press, hac, h1, h2, h]
  · intro s
    simp [pauseInv, cycleReset]

/-- Witness for C9: pressing `p` in the fresh state preserves the
    invariant. -/
theorem pause_invariant_preserved_witness :
    pauseInv (on_press (some 'p') 0 initState) :=
  pause_invariant_preserved.2.1 (some 'p') 0 initState (by decide)

/-- C10: `parse_time` checks no component for non-negativity — a negative
    single part is returned as negative seconds, a negative trailing
    component is below every `≥ 60` bound and is absorbed into the signed
    sum, and in general any two-part input whose seconds value is negative
    is accepted as `minutes * 60 + seconds`. -/
theorem parse_time_accepts_negative :
    parse_time "-5" = .ok (-5) ∧
    parse_time "1:-5" = .ok 55 ∧
    (∀ s p1 p2 mv sv, splitChar ':' s.data = [p1, p2] →
      pyInt p1 = some mv → pyInt p2 = some sv → sv < 0 →
      parse_time s = .ok (mv * 60 + sv)) := by
  refine ⟨rfl, rfl, ?_⟩
  intro s p1 p2 mv sv hsplit h1 h2 hneg
  rw [parse_time_two_parts s p1 p2 mv sv hsplit h1 h2, if_neg (by omega)]

/-- Witness for C10: a negative seconds component in two-part form. -/
theorem parse_time_accepts_negative_witness :
    parse_time "2:-7" = .ok (2 * 60 + -7) :=
  parse_time_accepts_negative.2.2 "2:-7" ['2'] ['-', '7'] 2 (-7) rfl rfl rfl (by omega)
